/-
Verification of the PM-Accelerator Weather App backend (server.js) against its
natural-language specification.

The Express route handlers and helper functions of server.js are shallowly
embedded as pure Lean functions.  External effects are made explicit:
  * the upstream OpenWeather HTTP calls become `HttpResult` parameters that
    describe what the network would have returned for the request;
  * the PostgreSQL store becomes a `List WeatherRecord` threaded through the
    handlers;
  * `Date` values (millisecond timestamps) are modelled as `Int`; string
    parsing with validator.isDate / `new Date` is abstracted by a
    `parse : String → Option Int` parameter (`none` = not a well-formed date);
  * upstream floating-point fields (temperature, wind speed, ...) are
    modelled as `Int` — no claim under verification depends on fractional
    values, only on the list structure of the forecast samples.
-/
import Mathlib

namespace WeatherApp

/-! ## Upstream (OpenWeather) gateway model -/

/-- Outcome of one axios HTTP request: either a parsed payload or a thrown
network/HTTP/parse error. -/
inductive HttpResult (α : Type) where
  | ok (data : α)
  | error
deriving DecidableEq, Repr

/-- One candidate returned by the OpenWeather geocoding API.  The optional
`state` field is modelled as a `String` where `""` encodes a missing or empty
field, matching JavaScript truthiness (`locationData.state || ''` and the
ternary both treat `""` and `undefined` alike). -/
structure GeoCandidate where
  name : String
  state : String
  country : String
  lat : Int
  lon : Int
deriving DecidableEq, Repr

/-- One raw sample of the upstream `/data/2.5/forecast` response list. -/
structure UpstreamSample where
  date : String
  time : String
  temp : Int
  feels_like : Int
  humidity : Int
  pressure : Int
  wind_speed : Int
  wind_deg : Int
  weather_main : String
  weather_description : String
  weather_icon : String
  visibility : Int
  clouds : Int
deriving DecidableEq, Repr

/-- One processed forecast sample, as produced by the `.map` in
`getWeatherData` (server.js lines 489-503). -/
structure WeatherSample where
  date : String
  time : String
  temperature : Int
  feels_like : Int
  humidity : Int
  pressure : Int
  wind_speed : Int
  wind_direction : Int
  weather_main : String
  weather_description : String
  weather_icon : String
  visibility : Int
  clouds : Int
deriving DecidableEq, Repr

/-- The per-item transformation inside `getWeatherData`'s `.map`:
field renaming, `Math.round` on temperatures (identity on the integer model)
and metres→kilometres conversion of visibility. -/
def procSample (item : UpstreamSample) : WeatherSample :=
  { date := item.date
    time := item.time
    temperature := item.temp
    feels_like := item.feels_like
    humidity := item.humidity
    pressure := item.pressure
    wind_speed := item.wind_speed
    wind_direction := item.wind_deg
    weather_main := item.weather_main
    weather_description := item.weather_description
    weather_icon := item.weather_icon
    visibility := item.visibility / 1000
    clouds := item.clouds }

/-- Return value of `getWeatherData` on success (server.js lines 505-510). -/
structure WeatherResult where
  location : String
  country : String
  lat : Int
  lon : Int
  weather_data : List WeatherSample
deriving DecidableEq, Repr

/-- The distinct ways the body of `getWeatherData`'s `try` block can throw. -/
inductive FetchFailure where
  | noApiKey
  | geoHttpError
  | locationNotFound
  | forecastHttpError
deriving DecidableEq, Repr

/-- The `try` block of `getWeatherData` (server.js lines 469-510), before the
`catch` replaces the error.  `apiKey` is `process.env.OPENWEATHER_API_KEY`;
`geo` and `forecast` are what the two axios calls would return. -/
def getWeatherDataInner (apiKey : Option String)
    (geo : HttpResult (List GeoCandidate))
    (forecast : HttpResult (List UpstreamSample))
    (_location : String) (days : Nat) : Except FetchFailure WeatherResult :=
  match apiKey with
  | none => .error .noApiKey
  | some _ =>
    match geo with
    | .error => .error .geoHttpError
    | .ok [] => .error .locationNotFound
    | .ok (c :: _) =>
      match forecast with
      | .error => .error .forecastHttpError
      | .ok list =>
        .ok { location := c.name
              country := c.country
              lat := c.lat
              lon := c.lon
              weather_data := (list.take (days * 8)).map procSample }

/-- `getWeatherData(location, days)` (server.js lines 468-515).  The `catch`
block logs the original error server-side and rethrows
`new Error('Failed to fetch weather data')`, so every failure cause reaches
the caller as the same generic message. -/
def getWeatherData (apiKey : Option String)
    (geo : HttpResult (List GeoCandidate))
    (forecast : HttpResult (List UpstreamSample))
    (location : String) (days : Nat) : Except String WeatherResult :=
  match getWeatherDataInner apiKey geo forecast location days with
  | .ok r => .ok r
  | .error _ => .error "Failed to fetch weather data"

/-- Shape returned by `getLocationDetails` (server.js lines 419-465). -/
structure LocationDetails where
  city : String
  state : String
  country : String
  formatted_address : String
  coordinates : Option (Int × Int)
deriving DecidableEq, Repr

/-- The degraded "basic location data" object returned by
`getLocationDetails` when resolution is impossible. -/
def basicLocation (location : String) : LocationDetails :=
  { city := location
    state := ""
    country := "Unknown"
    formatted_address := location
    coordinates := none }

/-- `getLocationDetails(location)` (server.js lines 419-465).  Total: the
missing-key branch, the empty-candidates branch and the `catch` branch all
return the degraded object instead of throwing. -/
def getLocationDetails (apiKey : Option String)
    (geo : HttpResult (List GeoCandidate))
    (location : String) : LocationDetails :=
  match apiKey with
  | none => basicLocation location
  | some _ =>
    match geo with
    | .error => basicLocation location
    | .ok [] => basicLocation location
    | .ok (c :: _) =>
      { city := c.name
        state := c.state
        country := c.country
        formatted_address :=
          c.name ++ (if c.state ≠ "" then ", " ++ c.state else "") ++ ", " ++ c.country
        coordinates := some (c.lat, c.lon) }

/-! ## Input validation (validateWeatherData middleware) -/

/-- JavaScript `String.prototype.trim`: strip leading and trailing
whitespace.  Defined by structural recursion over the character list so
that concrete instances evaluate inside the kernel. -/
def dropLeadingWS : List Char → List Char
  | [] => []
  | c :: cs => if c.isWhitespace then dropLeadingWS cs else c :: cs

def jsTrim (s : String) : String :=
  ⟨(dropLeadingWS ((dropLeadingWS s.data).reverse)).reverse⟩

/-- `14 * 24 * 60 * 60 * 1000` milliseconds, as in server.js line 168. -/
def msPerDay : Int := 1000 * 60 * 60 * 24

/-- The `validateWeatherData` middleware (server.js lines 143-173).
`parse` abstracts validator.isDate together with `new Date` on a string:
`none` when `!s || !validator.isDate(s)`, otherwise the timestamp in
milliseconds.  The `!location` guard of the source is subsumed by the length
check, since `"".trim().length = 0 < 2`.  `jsTrim` models `.trim()`.  Returns `some message` for the
first failing check (the 400 response body), `none` when `next()` runs. -/
def validateWeatherData (parse : String → Option Int) (now : Int)
    (location startDate endDate : String) : Option String :=
  if (jsTrim location).length < 2 ∨ 100 < (jsTrim location).length then
    some "Valid location is required (2-100 characters)"
  else
    match parse startDate with
    | none => some "Valid start date is required"
    | some s =>
      match parse endDate with
      | none => some "Valid end date is required"
      | some e =>
        if e < s then
          some "Start date must be before end date"
        else if now + 14 * msPerDay < e then
          some "End date cannot be more than 14 days in the future"
        else none

/-- The five validation checks in the order the spec states them, each as a
(fails?, message) pair.  Written from the spec's wording of the order, to be
compared with `validateWeatherData`. -/
def validationChecks (parse : String → Option Int) (now : Int)
    (location startDate endDate : String) : List (Bool × String) :=
  [ (decide ((jsTrim location).length < 2 ∨ 100 < (jsTrim location).length),
     "Valid location is required (2-100 characters)"),
    ((parse startDate).isNone, "Valid start date is required"),
    ((parse endDate).isNone, "Valid end date is required"),
    (decide ((parse endDate).getD 0 < (parse startDate).getD 0),
     "Start date must be before end date"),
    (decide (now + 14 * msPerDay < (parse endDate).getD 0),
     "End date cannot be more than 14 days in the future") ]

/-- First failing check of an ordered check list ("fail fast, first failure
wins"). -/
def firstFailure : List (Bool × String) → Option String
  | [] => none
  | (b, m) :: rest => if b then some m else firstFailure rest

/-! ## Record store and CRUD handlers -/

/-- One row of the `weather_records` table.  `createdAt`/`updatedAt` are
millisecond timestamps. -/
structure WeatherRecord where
  id : Nat
  userId : Nat
  location : String
  startDate : String
  endDate : String
  weather_data : WeatherResult
  maps_data : LocationDetails
  createdAt : Int
  updatedAt : Int
deriving DecidableEq, Repr

/-- The SQL predicate `id = $1 AND user_id = $2` used by the GET / PUT /
DELETE by-id handlers. -/
def ownedBy (id userId : Nat) (r : WeatherRecord) : Bool :=
  r.id == id && r.userId == userId

/-- External-call and write counters of one handler invocation. -/
structure Effects where
  forecastCalls : Nat
  geocodeCalls : Nat
  writes : Nat
deriving DecidableEq, Repr

def Effects.none : Effects := ⟨0, 0, 0⟩

def Effects.add (a b : Effects) : Effects :=
  ⟨a.forecastCalls + b.forecastCalls, a.geocodeCalls + b.geocodeCalls, a.writes + b.writes⟩

/-- HTTP requests issued by one `getWeatherData` call: the geocode request
happens whenever the key is configured; the forecast request only after a
non-empty candidate list. -/
def weatherCallEffects (apiKey : Option String)
    (geo : HttpResult (List GeoCandidate)) : Effects :=
  match apiKey with
  | none => Effects.none
  | some _ =>
    match geo with
    | .error => ⟨0, 1, 0⟩
    | .ok [] => ⟨0, 1, 0⟩
    | .ok (_ :: _) => ⟨1, 1, 0⟩

/-- HTTP requests issued by one `getLocationDetails` call: one geocode
request whenever the key is configured, none otherwise. -/
def locationCallEffects (apiKey : Option String) : Effects :=
  match apiKey with
  | none => Effects.none
  | some _ => ⟨0, 1, 0⟩

/-- `daysDiff = Math.ceil((end - start) / (1000*60*60*24)) + 1`
(server.js lines 551 and 656), for `start ≤ end` as guaranteed by the
validation middleware. -/
def daysRequested (s e : Int) : Nat :=
  ((e - s).toNat + (1000 * 60 * 60 * 24 - 1)) / (1000 * 60 * 60 * 24) + 1

/-- Outcome of `GET /api/weather-records/:id` (server.js lines 618-637). -/
inductive GetResult where
  | found (r : WeatherRecord)
  | notFound
deriving DecidableEq, Repr

/-- `GET /api/weather-records/:id`: `SELECT * ... WHERE id = $1 AND
user_id = $2`; empty result → 404 "Weather record not found". -/
def getRecord (store : List WeatherRecord) (id userId : Nat) : GetResult :=
  match store.find? (ownedBy id userId) with
  | some r => .found r
  | none => .notFound

/-- Outcome of `DELETE /api/weather-records/:id` (server.js lines 684-703). -/
inductive DeleteResult where
  | deleted
  | notFound
deriving DecidableEq, Repr

/-- `DELETE /api/weather-records/:id`: `DELETE ... WHERE id = $1 AND
user_id = $2 RETURNING id`; zero rows → 404, store untouched. -/
def deleteRecord (store : List WeatherRecord) (id userId : Nat) :
    DeleteResult × List WeatherRecord :=
  match store.find? (ownedBy id userId) with
  | none => (.notFound, store)
  | some _ => (.deleted, store.filter (fun r => !(ownedBy id userId r)))

/-- Outcome of `POST /api/weather-records` (server.js lines 542-580). -/
inductive CreateResult where
  | validationError (msg : String)
  | serverError (msg : String)
  | created (record : WeatherRecord)
deriving DecidableEq, Repr

/-- The create pipeline: `validateWeatherData` middleware, then the POST
handler (fetch forecast, fetch location details, INSERT).  `geoW`/`forecast`
feed `getWeatherData`, `geoL` feeds `getLocationDetails`; `newId` is the
SERIAL id the INSERT would assign and `timestamp` its CURRENT_TIMESTAMP. -/
def createRecord (parse : String → Option Int) (now : Int)
    (apiKey : Option String)
    (geoW : HttpResult (List GeoCandidate))
    (forecast : HttpResult (List UpstreamSample))
    (geoL : HttpResult (List GeoCandidate))
    (store : List WeatherRecord) (newId userId : Nat)
    (location startDate endDate : String) (timestamp : Int) :
    CreateResult × List WeatherRecord × Effects :=
  match validateWeatherData parse now location startDate endDate with
  | some msg => (.validationError msg, store, Effects.none)
  | none =>
    let s := (parse startDate).getD 0
    let e := (parse endDate).getD 0
    match getWeatherData apiKey geoW forecast location (daysRequested s e) with
    | .error msg => (.serverError msg, store, weatherCallEffects apiKey geoW)
    | .ok wd =>
      let md := getLocationDetails apiKey geoL location
      let newRec : WeatherRecord :=
        { id := newId, userId := userId, location := wd.location
          startDate := startDate, endDate := endDate
          weather_data := wd, maps_data := md
          createdAt := timestamp, updatedAt := timestamp }
      (.created newRec, newRec :: store,
        (weatherCallEffects apiKey geoW).add ((locationCallEffects apiKey).add ⟨0, 0, 1⟩))

/-- Outcome of `PUT /api/weather-records/:id` (server.js lines 639-682). -/
inductive UpdateResult where
  | validationError (msg : String)
  | notFound
  | serverError (msg : String)
  | updated (record : WeatherRecord)
deriving DecidableEq, Repr

/-- The update pipeline: `validateWeatherData` middleware, then the PUT
handler: ownership SELECT (404 on empty), forecast fetch, location fetch,
UPDATE of the matched row. -/
def updateRecord (parse : String → Option Int) (now : Int)
    (apiKey : Option String)
    (geoW : HttpResult (List GeoCandidate))
    (forecast : HttpResult (List UpstreamSample))
    (geoL : HttpResult (List GeoCandidate))
    (store : List WeatherRecord) (id userId : Nat)
    (location startDate endDate : String) (timestamp : Int) :
    UpdateResult × List WeatherRecord × Effects :=
  match validateWeatherData parse now location startDate endDate with
  | some msg => (.validationError msg, store, Effects.none)
  | none =>
    match store.find? (ownedBy id userId) with
    | none => (.notFound, store, Effects.none)
    | some old =>
      let s := (parse startDate).getD 0
      let e := (parse endDate).getD 0
      match getWeatherData apiKey geoW forecast location (daysRequested s e) with
      | .error msg => (.serverError msg, store, weatherCallEffects apiKey geoW)
      | .ok wd =>
        let md := getLocationDetails apiKey geoL location
        let upd : WeatherRecord :=
          { old with location := wd.location
                     startDate := startDate, endDate := endDate
                     weather_data := wd, maps_data := md
                     updatedAt := timestamp }
        (.updated upd,
          store.map (fun r => if ownedBy id userId r then
            { r with location := wd.location
                     startDate := startDate, endDate := endDate
                     weather_data := wd, maps_data := md
                     updatedAt := timestamp } else r),
          (weatherCallEffects apiKey geoW).add ((locationCallEffects apiKey).add ⟨0, 0, 1⟩))

/-! ## Listing with pagination (GET /api/weather-records) -/

/-- Insert a record into a list already ordered by `createdAt` descending. -/
def insertByCreated (r : WeatherRecord) : List WeatherRecord → List WeatherRecord
  | [] => [r]
  | x :: xs =>
    if x.createdAt ≤ r.createdAt then r :: x :: xs else x :: insertByCreated r xs

/-- `ORDER BY created_at DESC`: sort newest-first. -/
def sortByCreatedDesc : List WeatherRecord → List WeatherRecord
  | [] => []
  | x :: xs => insertByCreated x (sortByCreatedDesc xs)

/-- The rows of `weather_records` owned by `userId`, newest first. -/
def userRecords (store : List WeatherRecord) (userId : Nat) : List WeatherRecord :=
  sortByCreatedDesc (store.filter (fun r => r.userId == userId))

/-- The `pagination` object of the list response (server.js lines 605-610).
`pages = Math.ceil(total / limit)` is `(total + limit - 1) / limit` on
naturals for `limit > 0` (the handler defaults `limit` to 10, so 0 cannot
reach the division). -/
structure Pagination where
  page : Nat
  limit : Nat
  total : Nat
  pages : Nat
deriving DecidableEq, Repr

/-- `GET /api/weather-records?page=&limit=` (server.js lines 582-616):
`LIMIT $2 OFFSET $3` with `offset = (page - 1) * limit`, plus the COUNT
query over the same user's rows. -/
def listRecords (store : List WeatherRecord) (userId page limit : Nat) :
    List WeatherRecord × Pagination :=
  let mine := userRecords store userId
  let total := mine.length
  ((mine.drop ((page - 1) * limit)).take limit,
   { page := page, limit := limit, total := total,
     pages := (total + limit - 1) / limit })

/-! ## Authentication (POST /api/auth/login) -/

/-- One row of the `users` table. -/
structure User where
  id : Nat
  username : String
  email : String
  password_hash : String
deriving DecidableEq, Repr

/-- `SELECT ... FROM users WHERE username = $1 OR email = $1`
(server.js lines 371-374). -/
def findUserByUsernameOrEmail (users : List User) (u : String) : Option User :=
  users.find? (fun x => x.username == u || x.email == u)

/-- Client-visible outcome of `POST /api/auth/login`. -/
inductive LoginResult where
  | badRequest (msg : String)
  | unauthorized (msg : String)
  | ok (userId : Nat) (username email : String)
deriving DecidableEq, Repr

/-- The login handler (server.js lines 360-416).  `checkPw password hash`
abstracts `bcrypt.compare`.  Both the user-missing case and the
password-mismatch case return 401 "Invalid credentials". -/
def login (users : List User) (checkPw : String → String → Bool)
    (username password : String) : LoginResult :=
  if username = "" ∨ password = "" then
    .badRequest "Username and password are required"
  else
    match findUserByUsernameOrEmail users username with
    | none => .unauthorized "Invalid credentials"
    | some u =>
      if checkPw password u.password_hash then .ok u.id u.username u.email
      else .unauthorized "Invalid credentials"

/-! ## Export (GET /api/export/json) -/

/-- Serialize one forecast sample to JSON text. -/
def sampleToJson (s : WeatherSample) : String :=
  "\x7b\"date\":\"" ++ s.date ++ "\",\"time\":\"" ++ s.time ++
  "\",\"temperature\":" ++ toString s.temperature ++
  ",\"feels_like\":" ++ toString s.feels_like ++
  ",\"humidity\":" ++ toString s.humidity ++
  ",\"pressure\":" ++ toString s.pressure ++
  ",\"wind_speed\":" ++ toString s.wind_speed ++
  ",\"wind_direction\":" ++ toString s.wind_direction ++
  ",\"weather_main\":\"" ++ s.weather_main ++
  "\",\"weather_description\":\"" ++ s.weather_description ++
  "\",\"weather_icon\":\"" ++ s.weather_icon ++
  "\",\"visibility\":" ++ toString s.visibility ++
  ",\"clouds\":" ++ toString s.clouds ++ "\x7d"

/-- Serialize a comma-separated JSON array body. -/
def joinComma : List String → String
  | [] => ""
  | [x] => x
  | x :: xs => x ++ "," ++ joinComma xs

/-- Serialize one `weather_records` row to JSON text (the shape `res.json`
produces for a `SELECT *` row). -/
def recordToJson (r : WeatherRecord) : String :=
  "\x7b\"id\":" ++ toString r.id ++
  ",\"user_id\":" ++ toString r.userId ++
  ",\"location\":\"" ++ r.location ++
  "\",\"start_date\":\"" ++ r.startDate ++
  "\",\"end_date\":\"" ++ r.endDate ++
  "\",\"weather_data\":[" ++ joinComma (r.weather_data.weather_data.map sampleToJson) ++
  "],\"created_at\":" ++ toString r.createdAt ++
  ",\"updated_at\":" ++ toString r.updatedAt ++ "\x7d"

/-- `GET /api/export/json` (server.js lines 706-723): `SELECT * ... WHERE
user_id = $1 ORDER BY created_at DESC`, then `res.json(records)`.  Returns
the response body and the (untouched) store after the request. -/
def exportJson (store : List WeatherRecord) (userId : Nat) :
    String × List WeatherRecord :=
  ("[" ++ joinComma ((userRecords store userId).map recordToJson) ++ "]", store)

/-! ## Concrete fixtures used to exhibit the theorems on explicit inputs -/

/-- A concrete date parser for fixtures: the handful of date strings used in
the examples, at millisecond offsets from epoch 0. -/
def sampleParse : String → Option Int
  | "2024-06-01" => some 0
  | "2024-06-03" => some (2 * 86400000)
  | "2024-06-05" => some (4 * 86400000)
  | _ => none

def sampleWeatherResult : WeatherResult :=
  { location := "Paris", country := "FR", lat := 48, lon := 2, weather_data := [] }

def sampleRecord (id uid : Nat) (t : Int) : WeatherRecord :=
  { id := id, userId := uid, location := "Paris"
    startDate := "2024-06-01", endDate := "2024-06-03"
    weather_data := sampleWeatherResult, maps_data := basicLocation "Paris"
    createdAt := t, updatedAt := t }

/-- 25 records, all owned by user 7. -/
def sampleStore : List WeatherRecord :=
  (List.range 25).map (fun i => sampleRecord i 7 (Int.ofNat i))

def sampleUser : User :=
  { id := 1, username := "alice", email := "a@x.com", password_hash := "hash" }

/-! ## Helper lemmas -/

theorem length_insertByCreated (r : WeatherRecord) (l : List WeatherRecord) :
    (insertByCreated r l).length = l.length + 1 := by
  induction l with
  | nil => rfl
  | cons x xs ih =>
    by_cases h : x.createdAt ≤ r.createdAt <;> simp [insertByCreated, h, ih]

theorem length_sortByCreatedDesc (l : List WeatherRecord) :
    (sortByCreatedDesc l).length = l.length := by
  induction l with
  | nil => rfl
  | cons x xs ih => simp [sortByCreatedDesc, length_insertByCreated, ih]

theorem mem_insertByCreated {y r : WeatherRecord} {l : List WeatherRecord} :
    y ∈ insertByCreated r l ↔ y = r ∨ y ∈ l := by
  induction l with
  | nil => simp [insertByCreated]
  | cons x xs ih =>
    by_cases h : x.createdAt ≤ r.createdAt
    · simp [insertByCreated, h]
    · simp [insertByCreated, h, ih]
      tauto

theorem pairwise_insertByCreated {r : WeatherRecord} {l : List WeatherRecord}
    (h : l.Pairwise (fun a b => b.createdAt ≤ a.createdAt)) :
    (insertByCreated r l).Pairwise (fun a b => b.createdAt ≤ a.createdAt) := by
  induction l with
  | nil => simp [insertByCreated]
  | cons x xs ih =>
    rw [List.pairwise_cons] at h
    obtain ⟨hx, hxs⟩ := h
    by_cases hc : x.createdAt ≤ r.createdAt
    · rw [insertByCreated, if_pos hc, List.pairwise_cons]
      refine ⟨?_, List.pairwise_cons.mpr ⟨hx, hxs⟩⟩
      intro y hy
      rcases List.mem_cons.mp hy with hy | hy
      · exact hy ▸ hc
      · exact le_trans (hx y hy) hc
    · rw [insertByCreated, if_neg hc, List.pairwise_cons]
      refine ⟨?_, ih hxs⟩
      intro y hy
      rcases mem_insertByCreated.mp hy with hy | hy
      · exact hy ▸ le_of_lt (lt_of_not_le hc)
      · exact hx y hy

theorem pairwise_sortByCreatedDesc (l : List WeatherRecord) :
    (sortByCreatedDesc l).Pairwise (fun a b => b.createdAt ≤ a.createdAt) := by
  induction l with
  | nil => simp [sortByCreatedDesc]
  | cons x xs ih => exact pairwise_insertByCreated ih

/-- Neither branch of `weatherCallEffects` writes to the store. -/
theorem weatherCallEffects_writes (apiKey : Option String)
    (geo : HttpResult (List GeoCandidate)) :
    (weatherCallEffects apiKey geo).writes = 0 := by
  cases apiKey with
  | none => rfl
  | some k =>
    cases geo with
    | error => rfl
    | ok l => cases l <;> rfl

/-! ## Claim theorems -/

/-- C1 (counterexample): the claim says a geocode step returning no
candidates makes `getWeatherData` fail with "location not found",
distinguishable from the generic error of any other HTTP failure.  In fact,
with a configured key and an empty candidate list the result is the same
`.error "Failed to fetch weather data"` produced when the geocode HTTP call
itself fails, and it is not a "Location not found" error: the `catch`
block replaces every internal error with the generic one. -/
theorem c1_distinguishable_counterexample :
    getWeatherData (some "key") (.ok []) (.ok []) "Atlantis" 5 =
      getWeatherData (some "key") .error (.ok []) "Atlantis" 5 ∧
    getWeatherData (some "key") (.ok []) (.ok []) "Atlantis" 5 ≠
      Except.error "Location not found" := by
  refine ⟨rfl, ?_⟩
  intro h
  simp [getWeatherData, getWeatherDataInner] at h

/-- C1 (amended): whenever the body of `getWeatherData` fails — missing API
key, geocode HTTP failure, empty candidate list ("Location not found"
internally), or forecast HTTP failure — the caller receives the single
generic error "Failed to fetch weather data"; the failure causes are not
distinguishable to the caller. -/
theorem c1_generic_upstream_error (apiKey : Option String)
    (geo : HttpResult (List GeoCandidate))
    (forecast : HttpResult (List UpstreamSample))
    (location : String) (days : Nat) (f : FetchFailure)
    (h : getWeatherDataInner apiKey geo forecast location days = .error f) :
    getWeatherData apiKey geo forecast location days =
      .error "Failed to fetch weather data" := by
  simp [getWeatherData, h]

/-- C1 (witness): the amended theorem at a concrete input whose geocode step
returns no candidates. -/
theorem c1_generic_upstream_error_witness :
    getWeatherData (some "key") (.ok []) (.ok []) "Atlantis" 5 =
      .error "Failed to fetch weather data" :=
  c1_generic_upstream_error (some "key") (.ok []) (.ok []) "Atlantis" 5
    .locationNotFound rfl

/-- C6: for every forecast fetch of `days` days with a resolved location,
the returned sample list is exactly the first `days * 8` upstream samples
(`samplesPerDay = 8`), so its length is `min available (days * 8)`, and it
is a prefix of the processed upstream list in upstream order — nothing is
padded or interpolated. -/
theorem c6_forecast_sample_count (k : String) (c : GeoCandidate)
    (rest : List GeoCandidate) (list : List UpstreamSample)
    (location : String) (days : Nat) :
    getWeatherData (some k) (.ok (c :: rest)) (.ok list) location days =
      .ok { location := c.name, country := c.country, lat := c.lat, lon := c.lon,
            weather_data := (list.take (days * 8)).map procSample } ∧
    ((list.take (days * 8)).map procSample).length = min list.length (days * 8) ∧
    (list.take (days * 8)).map procSample <+: list.map procSample := by
  refine ⟨rfl, ?_, ?_⟩
  · simp [List.length_take]
    omega
  · rw [List.map_take]
    exact List.take_prefix _ _

/-- C10: `getLocationDetails` is a total function (it never throws) whose
result always carries the four fields city/state/country/formatted_address;
whenever resolution is impossible — missing API key, geocode HTTP failure,
or an empty candidate list — it returns the degraded object with
`city = input`, `state = ""`, `country = "Unknown"`,
`formatted_address = input`. -/
theorem c10_location_details_degrades (apiKey : Option String)
    (geo : HttpResult (List GeoCandidate)) (location : String)
    (h : apiKey = none ∨ geo = .error ∨ geo = .ok []) :
    getLocationDetails apiKey geo location = basicLocation location := by
  rcases h with h | h | h
  · rw [h]; rfl
  · rw [h]; cases apiKey <;> rfl
  · rw [h]; cases apiKey <;> rfl

/-- C10 (witness): a geocode HTTP failure with a configured key still yields
the degraded object. -/
theorem c10_location_details_degrades_witness :
    getLocationDetails (some "key") .error "Paris" = basicLocation "Paris" :=
  c10_location_details_degrades (some "key") .error "Paris" (Or.inr (Or.inl rfl))

/-- C3: create/update validation is exactly the first failing check of the
ordered list location length → startDate well-formed → endDate well-formed →
start ≤ end → end ≤ now + 14 days (fail fast, first failure wins), and in
the update pipeline the ownership check comes after all of them: when any
validation check fails, the update returns that validation error without
ever consulting the ownership query. -/
theorem c3_validation_order (parse : String → Option Int) (now : Int)
    (location startDate endDate : String) :
    validateWeatherData parse now location startDate endDate =
      firstFailure (validationChecks parse now location startDate endDate) ∧
    (∀ (apiKey : Option String) (geoW geoL : HttpResult (List GeoCandidate))
       (forecast : HttpResult (List UpstreamSample))
       (store : List WeatherRecord) (id userId : Nat) (timestamp : Int)
       (msg : String),
      validateWeatherData parse now location startDate endDate = some msg →
      updateRecord parse now apiKey geoW forecast geoL store id userId
        location startDate endDate timestamp =
        (.validationError msg, store, Effects.none)) := by
  constructor
  · unfold validateWeatherData validationChecks firstFailure
    cases hps : parse startDate <;> cases hpe : parse endDate <;>
      simp [hps, hpe, firstFailure]
  · intro apiKey geoW geoL forecast store id userId timestamp msg h
    simp [updateRecord, h]

/-- C3 (witness): the refinement equation and the update short-circuit at a
concrete submission whose start date is after its end date. -/
theorem c3_validation_order_witness :
    validateWeatherData sampleParse 0 "Paris" "2024-06-05" "2024-06-01" =
      firstFailure (validationChecks sampleParse 0 "Paris" "2024-06-05" "2024-06-01") ∧
    updateRecord sampleParse 0 (some "key") (.ok []) (.ok []) (.ok [])
      [sampleRecord 1 7 0] 1 7 "Paris" "2024-06-05" "2024-06-01" 0 =
      (.validationError "Start date must be before end date",
       [sampleRecord 1 7 0], Effects.none) := by
  refine ⟨(c3_validation_order sampleParse 0 "Paris" "2024-06-05" "2024-06-01").1, ?_⟩
  exact (c3_validation_order sampleParse 0 "Paris" "2024-06-05" "2024-06-01").2
    (some "key") (.ok []) (.ok []) (.ok []) [sampleRecord 1 7 0] 1 7 0 _ (by decide)

/-- C4: a create or update submission that fails validation returns the
message of the violated rule and performs zero forecast calls, zero geocode
calls and zero store writes, leaving the store unchanged. -/
theorem c4_validation_failure_no_effects (parse : String → Option Int)
    (now : Int) (apiKey : Option String)
    (geoW geoL : HttpResult (List GeoCandidate))
    (forecast : HttpResult (List UpstreamSample))
    (store : List WeatherRecord) (newId id userId : Nat)
    (location startDate endDate : String) (timestamp : Int) (msg : String)
    (h : validateWeatherData parse now location startDate endDate = some msg) :
    createRecord parse now apiKey geoW forecast geoL store newId userId
      location startDate endDate timestamp =
      (.validationError msg, store, Effects.none) ∧
    updateRecord parse now apiKey geoW forecast geoL store id userId
      location startDate endDate timestamp =
      (.validationError msg, store, Effects.none) ∧
    Effects.none = ⟨0, 0, 0⟩ := by
  refine ⟨?_, ?_, rfl⟩
  · simp [createRecord, h]
  · simp [updateRecord, h]

/-- C4 (witness): a submission with startDate > endDate performs no gateway
calls and no writes, on both pipelines. -/
theorem c4_validation_failure_no_effects_witness :
    createRecord sampleParse 0 (some "key") (.ok []) (.ok []) (.ok [])
      [] 9 7 "Paris" "2024-06-05" "2024-06-01" 0 =
      (.validationError "Start date must be before end date", [], Effects.none) ∧
    updateRecord sampleParse 0 (some "key") (.ok []) (.ok []) (.ok [])
      [] 9 7 "Paris" "2024-06-05" "2024-06-01" 0 =
      (.validationError "Start date must be before end date", [], Effects.none) := by
  have h := c4_validation_failure_no_effects sampleParse 0 (some "key")
    (.ok []) (.ok []) (.ok []) [] 9 9 7 "Paris" "2024-06-05" "2024-06-01" 0
    "Start date must be before end date" (by decide)
  exact ⟨h.1, h.2.1⟩

/-- C5: when the forecast-gateway call of an update fails (for any cause:
missing key, geocode failure, no candidates, forecast HTTP failure), the
whole operation fails with a 500, the store is returned unchanged — the
record's prior forecast and location payloads are intact — and no write is
performed. -/
theorem c5_update_gateway_failure_no_write (parse : String → Option Int)
    (now : Int) (apiKey : Option String)
    (geoW geoL : HttpResult (List GeoCandidate))
    (forecast : HttpResult (List UpstreamSample))
    (store : List WeatherRecord) (id userId : Nat)
    (location startDate endDate : String) (timestamp : Int)
    (old : WeatherRecord) (msg : String)
    (hv : validateWeatherData parse now location startDate endDate = none)
    (hown : store.find? (ownedBy id userId) = some old)
    (hg : getWeatherData apiKey geoW forecast location
        (daysRequested ((parse startDate).getD 0) ((parse endDate).getD 0)) =
        .error msg) :
    updateRecord parse now apiKey geoW forecast geoL store id userId
      location startDate endDate timestamp =
      (.serverError msg, store, weatherCallEffects apiKey geoW) ∧
    (weatherCallEffects apiKey geoW).writes = 0 ∧
    old ∈ store := by
  refine ⟨?_, weatherCallEffects_writes apiKey geoW, List.mem_of_find?_eq_some hown⟩
  simp [updateRecord, hv, hown, hg]

/-- C5 (witness): updating an owned record while the API key is missing
fails without touching the stored record. -/
theorem c5_update_gateway_failure_no_write_witness :
    updateRecord sampleParse 0 none (.ok []) (.ok []) (.ok [])
      [sampleRecord 1 7 0] 1 7 "Paris" "2024-06-01" "2024-06-03" 5 =
      (.serverError "Failed to fetch weather data",
       [sampleRecord 1 7 0], weatherCallEffects none (.ok [])) ∧
    (weatherCallEffects none (.ok [])).writes = 0 := by
  have h := c5_update_gateway_failure_no_write sampleParse 0 none
    (.ok []) (.ok []) (.ok []) [sampleRecord 1 7 0] 1 7
    "Paris" "2024-06-01" "2024-06-03" 5 (sampleRecord 1 7 0)
    "Failed to fetch weather data" (by decide) (by decide) rfl
  exact ⟨h.1, h.2.1⟩

/-- C2: a record owned by user `a` is invisible and immutable to any other
user `b`: GET by id returns 404, DELETE returns 404 leaving the store
unchanged, and PUT — once its body passes validation — returns 404 leaving
the store unchanged; moreover PUT leaves the store unchanged for `b`
whatever the body.  The id-uniqueness hypothesis reflects the SERIAL
PRIMARY KEY of `weather_records`. -/
theorem c2_ownership_isolation (store : List WeatherRecord)
    (r : WeatherRecord) (b : Nat)
    (_hmem : r ∈ store)
    (hid : ∀ r' ∈ store, r'.id = r.id → r'.userId = r.userId)
    (hb : b ≠ r.userId)
    (parse : String → Option Int) (now : Int) (apiKey : Option String)
    (geoW geoL : HttpResult (List GeoCandidate))
    (forecast : HttpResult (List UpstreamSample))
    (location startDate endDate : String) (timestamp : Int) :
    getRecord store r.id b = .notFound ∧
    deleteRecord store r.id b = (.notFound, store) ∧
    (validateWeatherData parse now location startDate endDate = none →
      updateRecord parse now apiKey geoW forecast geoL store r.id b
        location startDate endDate timestamp = (.notFound, store, Effects.none)) ∧
    (updateRecord parse now apiKey geoW forecast geoL store r.id b
        location startDate endDate timestamp).2.1 = store := by
  have hfind : store.find? (ownedBy r.id b) = none := by
    rw [List.find?_eq_none]
    intro x hx hpx
    rw [ownedBy, Bool.and_eq_true, beq_iff_eq, beq_iff_eq] at hpx
    exact hb (by rw [← hpx.2, hid x hx hpx.1])
  refine ⟨?_, ?_, ?_, ?_⟩
  · simp [getRecord, hfind]
  · simp [deleteRecord, hfind]
  · intro hv
    simp [updateRecord, hv, hfind]
  · cases hv : validateWeatherData parse now location startDate endDate with
    | none => simp [updateRecord, hv, hfind]
    | some msg => simp [updateRecord, hv]

/-- C2 (witness): user 2 cannot see, delete or update user 1's record. -/
theorem c2_ownership_isolation_witness :
    getRecord [sampleRecord 1 1 0] 1 2 = .notFound ∧
    deleteRecord [sampleRecord 1 1 0] 1 2 = (.notFound, [sampleRecord 1 1 0]) ∧
    updateRecord sampleParse 0 (some "key") (.ok []) (.ok []) (.ok [])
      [sampleRecord 1 1 0] 1 2 "Paris" "2024-06-01" "2024-06-03" 0 =
      (.notFound, [sampleRecord 1 1 0], Effects.none) := by
  have h := c2_ownership_isolation [sampleRecord 1 1 0] (sampleRecord 1 1 0) 2
    (List.mem_singleton.mpr rfl)
    (by intro r' hr' _; rw [List.mem_singleton.mp hr'])
    (by decide)
    sampleParse 0 (some "key") (.ok []) (.ok []) (.ok [])
    "Paris" "2024-06-01" "2024-06-03" 0
  exact ⟨h.1, h.2.1, h.2.2.1 (by decide)⟩

/-- C7: for a user owning exactly 25 records, a list request with limit 10
reports total 25 and pages 3, and page 3 holds exactly 5 records; in
general the listing returns the user's records newest-first, page `p` is
the slice at offset `(p - 1) * limit` of at most `limit` records, and
`pages` is the ceiling of `total / limit`. -/
theorem c7_pagination (store : List WeatherRecord) (uid : Nat)
    (h25 : (store.filter (fun r => r.userId == uid)).length = 25) :
    (listRecords store uid 1 10).2.total = 25 ∧
    (listRecords store uid 1 10).2.pages = 3 ∧
    ((listRecords store uid 3 10).1).length = 5 ∧
    (∀ page limit : Nat,
      (listRecords store uid page limit).1 =
        ((userRecords store uid).drop ((page - 1) * limit)).take limit ∧
      ((listRecords store uid page limit).1).length ≤ limit ∧
      (listRecords store uid page limit).2.pages =
        (listRecords store uid page limit).2.total ⌈/⌉ limit ∧
      ((listRecords store uid page limit).1).Pairwise
        (fun a b => b.createdAt ≤ a.createdAt)) := by
  have hmine : (userRecords store uid).length = 25 := by
    rw [userRecords, length_sortByCreatedDesc, h25]
  refine ⟨hmine, ?_, ?_, ?_⟩
  · simp [listRecords, hmine]
  · simp [listRecords, List.length_take, List.length_drop, hmine]
  · intro page limit
    refine ⟨rfl, ?_, rfl, ?_⟩
    · simp [listRecords, List.length_take]
    · exact List.Pairwise.sublist
        ((List.take_sublist _ _).trans (List.drop_sublist _ _))
        (pairwise_sortByCreatedDesc _)

/-- C7 (witness): a concrete store of 25 records owned by user 7. -/
theorem c7_pagination_witness :
    (listRecords sampleStore 7 1 10).2.total = 25 ∧
    (listRecords sampleStore 7 1 10).2.pages = 3 ∧
    ((listRecords sampleStore 7 3 10).1).length = 5 := by
  have h := c7_pagination sampleStore 7 (by decide)
  exact ⟨h.1, h.2.1, h.2.2.1⟩

/-- C8: a login for a username (or email) with no matching account and a
login for an existing account with a mismatching password return the
identical 401 response "Invalid credentials" — the two causes are
indistinguishable to the client — and the account lookup matches a user by
username or by email. -/
theorem c8_login_no_enumeration (users1 users2 : List User)
    (checkPw : String → String → Bool) (username password : String)
    (hu : username ≠ "") (hp : password ≠ "")
    (h1 : findUserByUsernameOrEmail users1 username = none)
    (u : User) (h2 : findUserByUsernameOrEmail users2 username = some u)
    (h3 : checkPw password u.password_hash = false) :
    login users1 checkPw username password =
      .unauthorized "Invalid credentials" ∧
    login users2 checkPw username password =
      .unauthorized "Invalid credentials" ∧
    login users1 checkPw username password =
      login users2 checkPw username password ∧
    (∀ (users : List User) (v : User), v ∈ users →
      v.username = username ∨ v.email = username →
      (findUserByUsernameOrEmail users username).isSome = true) := by
  have g1 : login users1 checkPw username password =
      .unauthorized "Invalid credentials" := by
    simp [login, hu, hp, h1]
  have g2 : login users2 checkPw username password =
      .unauthorized "Invalid credentials" := by
    simp [login, hu, hp, h2, h3]
  refine ⟨g1, g2, g1.trans g2.symm, ?_⟩
  intro users v hv hvu
  rw [findUserByUsernameOrEmail]
  simp only [List.find?_isSome]
  exact ⟨v, hv, by rcases hvu with h | h <;> simp [h]⟩

/-- C8 (witness): the empty user table and a one-user table with a wrong
password produce the same 401 body. -/
theorem c8_login_no_enumeration_witness :
    login [] (fun _ _ => false) "alice" "pw" =
      .unauthorized "Invalid credentials" ∧
    login [sampleUser] (fun _ _ => false) "alice" "pw" =
      .unauthorized "Invalid credentials" := by
  have h := c8_login_no_enumeration [] [sampleUser] (fun _ _ => false)
    "alice" "pw" (by decide) (by decide) rfl sampleUser (by decide) rfl
  exact ⟨h.1, h.2.1⟩

/-- C9: the JSON export neither mutates the store nor depends on anything
but the user's stored records: exporting twice with no intervening mutation
yields byte-identical bodies, two stores agreeing on the user's records
yield identical bodies, and the exported records are ordered newest-first. -/
theorem c9_export_idempotent (store : List WeatherRecord) (uid : Nat) :
    (exportJson store uid).2 = store ∧
    (exportJson ((exportJson store uid).2) uid).1 = (exportJson store uid).1 ∧
    (∀ store2 : List WeatherRecord,
      store2.filter (fun r => r.userId == uid) =
        store.filter (fun r => r.userId == uid) →
      (exportJson store2 uid).1 = (exportJson store uid).1) ∧
    (userRecords store uid).Pairwise (fun a b => b.createdAt ≤ a.createdAt) := by
  refine ⟨rfl, rfl, ?_, pairwise_sortByCreatedDesc _⟩
  intro s2 h
  simp [exportJson, userRecords, h]

/-- C9 (witness): the export leaves a concrete store untouched, and two
stores with the same records of user 1 (here: none) export the same body. -/
theorem c9_export_idempotent_witness :
    (exportJson [sampleRecord 1 1 0] 1).2 = [sampleRecord 1 1 0] ∧
    (exportJson [] 1).1 = (exportJson [sampleRecord 2 2 0] 1).1 := by
  have ha := c9_export_idempotent [sampleRecord 1 1 0] 1
  have hb := c9_export_idempotent [sampleRecord 2 2 0] 1
  exact ⟨ha.1, hb.2.2.1 [] (by decide)⟩

end WeatherApp
